import Mathlib

/-!
Verification of the anomaly-detection application.

Shallow embedding of the `anomaly-detect` repository:

* the React client (`FilterControls`, `AnomalyTable`, `App.loadData`),
* the SQLite schema (`border_crossing_entry_data`),
* the detection engine, whose Python source is not part of the repository
  snapshot and is therefore modelled from the specification where needed.

All numerics use `ℚ`; machine floats do not occur in the properties below.
-/

namespace AnomalyDetect

/-! ## Client filter state (`FilterControls`)

`defaultFilters` in `FilterControls` holds one string per form field plus the
`showOnlyAnomalies` checkbox.  `handleChange` writes `event.target.value`
(or `checked` for the checkbox) into the named field.
-/

structure Filters where
  port_name : String
  state : String
  border : String
  measure : String
  date : String
  port_code : String
  value_min : String
  value_max : String
  anomaly_type : String
  threshold : String
  showOnlyAnomalies : Bool
  deriving Repr, DecidableEq

/-- The initial state structure of `FilterControls` (source: `defaultFilters`). -/
def defaultFilters : Filters :=
  { port_name := ""
    state := ""
    border := ""
    measure := ""
    date := ""
    port_code := ""
    value_min := ""
    value_max := ""
    anomaly_type := "statistical"
    threshold := "3.0"
    showOnlyAnomalies := false }

/-- The form fields that `handleChange` can address by `name`. -/
inductive FilterField where
  | port_name | state | border | measure | date | port_code
  | value_min | value_max | anomaly_type | threshold | showOnlyAnomalies
  deriving Repr, DecidableEq

/-- Source `handleChange`: writes checkbox state or the raw control value
into the named field.
`showOnlyAnomalies` is the only checkbox; every other field takes the raw
string value of its control. -/
def handleChange (s : Filters) : FilterField → String → Bool → Filters
  | .port_name, v, _ => { s with port_name := v }
  | .state, v, _ => { s with state := v }
  | .border, v, _ => { s with border := v }
  | .measure, v, _ => { s with measure := v }
  | .date, v, _ => { s with date := v }
  | .port_code, v, _ => { s with port_code := v }
  | .value_min, v, _ => { s with value_min := v }
  | .value_max, v, _ => { s with value_max := v }
  | .anomaly_type, v, _ => { s with anomaly_type := v }
  | .threshold, v, _ => { s with threshold := v }
  | .showOnlyAnomalies, _, c => { s with showOnlyAnomalies := c }

/-- Modelled from the spec: the backend `/filter-options` endpoint that fills
`options.anomaly_types` is not under `src/`; the specification fixes the
supported methods as range, statistical and seasonal_residual. -/
def supportedMethods : List String := ["range", "statistical", "seasonal_residual"]

/-- The option values offered by the `anomaly_type` select element: exactly
the methods the backend lists (see `supportedMethods`). -/
def anomalyTypeOptions : List String := supportedMethods

/-- User interactions `FilterControls` reacts to.  A `<select>` element only
fires change events carrying one of its option values; the numeric/text
inputs (`value_min`, `value_max`, `threshold`) fire arbitrary strings —
their `min`/`step` attributes do not restrict what `onChange` receives. -/
inductive ClientEvent where
  | selectAnomalyType (v : String)
  | selectOther (f : FilterField) (v : String)
  | input (f : FilterField) (v : String)
  | toggleShowOnly (checked : Bool)
  | reset
  deriving Repr

/-- One step of the client state machine.  `selectAnomalyType` goes through
`handleChange` only for values the select actually offers; `reset` is
`handleResetFilters` (restores `defaultFilters`). -/
def step (s : Filters) : ClientEvent → Filters
  | .selectAnomalyType v =>
      if v ∈ anomalyTypeOptions then handleChange s .anomaly_type v false else s
  | .selectOther f v =>
      if f = .anomaly_type ∨ f = .showOnlyAnomalies then s else handleChange s f v false
  | .input f v =>
      if f = .anomaly_type ∨ f = .showOnlyAnomalies then s else handleChange s f v false
  | .toggleShowOnly c => handleChange s .showOnlyAnomalies "" c
  | .reset => defaultFilters

/-- The filter state after a sequence of interactions, starting from
`defaultFilters`. -/
def runEvents (evs : List ClientEvent) : Filters :=
  evs.foldl step defaultFilters

/-- The query parameters a detection request carries; `none` models a JSON
object that lacks the key altogether. -/
structure ApiParams where
  method : Option String
  threshold : Option String
  deriving Repr, DecidableEq

/-- Submission (`handleApplyFilters` / `handleResetFilters`): the whole filter
object; the engine-relevant parameters are the method tag and threshold. -/
def applyFilters (f : Filters) : ApiParams :=
  { method := some f.anomaly_type, threshold := some f.threshold }

/-- Initial `activeFilters` state of the `App` component:
`{ location_abbr, topic, year_start, year_end, data_value_type }` — it
carries neither an `anomaly_type` nor a `threshold` key, and the mount
effect submits it verbatim via `loadData(activeFilters)`. -/
def initialActiveFiltersParams : ApiParams :=
  { method := none, threshold := none }

/-- The requests the client can construct and submit: the automatic request
on mount, and any Apply/Reset submission after a sequence of interactions. -/
inductive Submittable : ApiParams → Prop where
  | initial : Submittable initialActiveFiltersParams
  | applied (evs : List ClientEvent) : Submittable (applyFilters (runEvents evs))

/-! ### Decimal strings

The threshold and bound inputs hold strings; `parseDecimal` gives the number
a decimal string denotes (sign, digits, optional fractional part). -/

/-- Numeric value of a digit string (most significant first). -/
def digitsToNat (cs : List Char) : Nat :=
  cs.foldl (fun n c => n * 10 + (c.toNat - 48)) 0

/-- Parse an optionally signed decimal literal such as `"3.0"` or `"-1"`. -/
def parseDecimal (s : String) : Option ℚ :=
  let cs := s.data
  let signed : Bool × List Char :=
    match cs with
    | '-' :: rest => (true, rest)
    | _ => (false, cs)
  let intPart := signed.2.takeWhile (fun c => c.isDigit)
  let rest := signed.2.dropWhile (fun c => c.isDigit)
  if intPart.isEmpty then none
  else
    let sign : ℚ := if signed.1 then -1 else 1
    match rest with
    | [] => some (sign * (digitsToNat intPart : ℚ))
    | '.' :: frac =>
        if frac.isEmpty ∨ ¬ frac.all (fun c => c.isDigit) then none
        else some (sign * ((digitsToNat intPart : ℚ) +
          (digitsToNat frac : ℚ) / (10 ^ frac.length : ℚ)))
    | _ => none

/-! ## Presentation layer (`AnomalyTable`)

`AnomalyTable` receives `tableData` (rows from `/api/data`) and
`anomalyData` (results from `/api/anomalies`) and joins them by `id`. -/

/-- A row of `tableData` as the table consumes it; only the fields the
join/display logic reads are kept, `id` being the join key. -/
structure DataRow where
  id : Int
  port_name : String
  date : Option String
  value : Option Int
  deriving Repr, DecidableEq

/-- An element of `anomalyData`: a flagged id with its reason text. -/
structure AnomalyRes where
  id : Int
  anomaly_reason : String
  deriving Repr, DecidableEq

/-- Source `anomalyIds = new Set(anomalyData.map(a => a.id))`; membership in the
set is membership in the mapped list. -/
def anomalyIds (anomalyData : List AnomalyRes) : List Int :=
  anomalyData.map (fun a => a.id)

/-- Highlight test `anomalyIds.has(row.id)` — whether a row is rendered as anomalous. -/
def isAnomaly (anomalyData : List AnomalyRes) (rowId : Int) : Bool :=
  (anomalyIds anomalyData).contains rowId

/-- The `anomaly_info` column accessor:
`anomalyData.find(a => a.id === row.id)?.anomaly_reason || ''`. -/
def anomalyInfo (anomalyData : List AnomalyRes) (rowId : Int) : String :=
  ((anomalyData.find? (fun a => a.id = rowId)).map
    (fun a => a.anomaly_reason)).getD ""

/-- Source `displayData`: with `showOnlyAnomalies` keep only rows whose id is in
`anomalyIds`, otherwise show `tableData` as-is. -/
def displayData (tableData : List DataRow) (anomalyData : List AnomalyRes)
    (showOnlyAnomalies : Bool) : List DataRow :=
  if showOnlyAnomalies then
    tableData.filter (fun row => isAnomaly anomalyData row.id)
  else
    tableData

/-! ## Data loading (`App.loadData`) -/

/-- The `App` state touched by `loadData`. -/
structure AppState where
  data : List DataRow
  anomalies : List AnomalyRes
  error : Option String
  deriving Repr, DecidableEq

/-- The message `loadData` surfaces in its catch block. -/
def fetchErrorMessage : String :=
  "Failed to fetch data. Check console and backend status."

/-- Source `loadData`: clears both lists and the error, awaits `fetchData` then
`fetchAnomalies`, storing each response; any rejection lands in the catch
block, which sets the error and resets both lists to `[]`. -/
def loadData (fetchDataRes : Except String (List DataRow))
    (fetchAnomaliesRes : Except String (List AnomalyRes)) : AppState :=
  match fetchDataRes with
  | .error _ => { data := [], anomalies := [], error := some fetchErrorMessage }
  | .ok d =>
      match fetchAnomaliesRes with
      | .error _ => { data := [], anomalies := [], error := some fetchErrorMessage }
      | .ok a => { data := d, anomalies := a, error := none }

/-! ## Stored rows (`schema.sql`)

`border_crossing_entry_data` declares every column except `latitude`,
`longitude` and `point` as `NOT NULL`, with
`id INTEGER PRIMARY KEY AUTOINCREMENT`. -/

/-- A candidate stored row: every non-key column as it could be supplied,
`none` standing for SQL `NULL`. -/
structure StoredRow where
  port_name : Option String
  state : Option String
  port_code : Option Int
  border : Option String
  date : Option String
  measure : Option String
  value : Option Int
  latitude : Option ℚ
  longitude : Option ℚ
  point : Option String
  deriving Repr, DecidableEq

/-- Whether a row satisfies the schema's column constraints: the `NOT NULL`
columns must be present; `latitude`, `longitude`, `point` may be `NULL`. -/
def conformsToSchema (r : StoredRow) : Bool :=
  r.port_name.isSome && r.state.isSome && r.port_code.isSome &&
  r.border.isSome && r.date.isSome && r.measure.isSome && r.value.isSome

/-- The table contents together with the `AUTOINCREMENT` counter. -/
structure CrossingTable where
  nextId : Nat
  rows : List (Nat × StoredRow)
  deriving Repr

/-- The freshly created table (`sqlite_sequence` starts ids at 1). -/
def emptyTable : CrossingTable := { nextId := 1, rows := [] }

/-- Insert one row: `id INTEGER PRIMARY KEY AUTOINCREMENT` assigns the
monotone counter as the new id, so ids are never reused. -/
def insertRow (t : CrossingTable) (r : StoredRow) : CrossingTable :=
  { nextId := t.nextId + 1, rows := t.rows ++ [(t.nextId, r)] }

/-- Loading the CSV: insert every row in order into the empty table
(`flask init-db`). -/
def border_crossing_entry_data (rs : List StoredRow) : CrossingTable :=
  rs.foldl insertRow emptyTable

/-! ## Detection engine

Modelled from the spec: the Flask/Pandas backend that implements the engine
is not part of the repository snapshot under `src/`; the definitions below
follow §3–§4 and §7 of the specification. -/

/-- Modelled from the spec: a `Record` handed to the engine — unique integer
id, optionally missing numeric value, optionally missing date.  Dates are
abstracted to a month ordinal (the dataset is monthly). -/
structure Record where
  id : Nat
  value : Option ℚ
  date : Option Nat
  deriving Repr, DecidableEq

/-- Modelled from the spec: `AnomalyResult` — flagged id plus reason text. -/
structure AnomalyResult where
  id : Nat
  reason : String
  deriving Repr, DecidableEq

/-- Modelled from the spec (§7): the structural error taxonomy. -/
inductive DetectError where
  | InvalidParameter (field : String)
  | UnknownMethod
  | MalformedInput
  deriving Repr, DecidableEq

/-- Modelled from the spec (§3): a validated `DetectionRequest`, one variant
per supported method, each carrying its parameter struct. -/
inductive DetectionRequest where
  | range (minB maxB : Option ℚ)
  | statistical (threshold : ℚ)
  | seasonal_residual (threshold : ℚ)
  deriving Repr, DecidableEq

/-- Mean of a list of rationals (`0` on the empty list, which the callers
guard against). -/
def mean (xs : List ℚ) : ℚ := xs.sum / (xs.length : ℚ)

/-- Population variance σ² of a list of rationals.  The detectors compare
squared deviations against `threshold² · σ²`, which over the positive
threshold equals the `|z| > threshold` of the spec; the population convention is
used consistently. -/
def variance (xs : List ℚ) : ℚ :=
  (xs.map (fun x => (x - mean xs) ^ 2)).sum / (xs.length : ℚ)

/-- The values of the records that carry one (§4.2: "all Records with a
present, non-missing numeric value"). -/
def validValues (records : List Record) : List ℚ :=
  records.filterMap (fun r => r.value)

/-- Modelled from the spec (§4.1): per-record range check — a record with a
missing value is skipped; otherwise the min bound is checked first, then the
max bound, so at most one reason is produced per record. -/
def flagRange (minB maxB : Option ℚ) (r : Record) : Option AnomalyResult :=
  match r.value with
  | none => none
  | some v =>
      match minB with
      | some m =>
          if v < m then some { id := r.id, reason := s!"Value {v} below minimum {m}" }
          else
            match maxB with
            | some M =>
                if v > M then some { id := r.id, reason := s!"Value {v} above maximum {M}" }
                else none
            | none => none
      | none =>
          match maxB with
          | some M =>
              if v > M then some { id := r.id, reason := s!"Value {v} above maximum {M}" }
              else none
          | none => none

/-- Modelled from the spec (§4.1): the RangeDetector flags each record whose
present value violates a supplied bound. -/
def rangeDetector (records : List Record) (minB maxB : Option ℚ) :
    List AnomalyResult :=
  records.filterMap (flagRange minB maxB)

/-- Modelled from the spec (§4.2): the StatisticalDetector.  Fewer than two
valid values → empty result (insufficient data); σ² = 0 → empty result
before any z-score division (degenerate distribution); otherwise flag the
records with `(v − μ)² > threshold² · σ²`, i.e. `|z| > threshold`. -/
def statisticalDetector (records : List Record) (threshold : ℚ) :
    List AnomalyResult :=
  let vals := validValues records
  if vals.length < 2 then []
  else
    let μ := mean vals
    let σsq := variance vals
    if σsq = 0 then []
    else
      records.filterMap (fun r =>
        match r.value with
        | none => none
        | some v =>
            if (v - μ) ^ 2 > threshold ^ 2 * σsq then
              some { id := r.id,
                     reason := s!"Value {v} deviates more than {threshold} standard deviations from mean {μ}" }
            else none)

/-- The usable points of the seasonal series: records carrying both a date
and a value, sorted ascending by date (§4.3 step 1). -/
def seasonalSeries (records : List Record) : List (Nat × Nat × ℚ) :=
  ((records.filterMap (fun r =>
      match r.date, r.value with
      | some d, some v => some (d, r.id, v)
      | _, _ => none))).mergeSort (fun a b => a.1 ≤ b.1)

/-- Seasonal component source: the mean of the series values whose month
index (date mod 12) is `m`. -/
def monthMean (series : List (Nat × Nat × ℚ)) (m : Nat) : ℚ :=
  mean ((series.filter (fun p => p.1 % 12 = m)).map (fun p => p.2.2))

/-- Modelled from the spec (§4.3): the flagging core of the
SeasonalResidualDetector over the date-sorted series of usable points.
Requires at least 25 points, additively decomposes value into trend,
seasonal and residual components with seasonal means over a 12-month period
(the decomposition algorithm is a design choice behind the fixed contract),
and flags points whose residual z-score exceeds the threshold; σ_R = 0
yields an empty result. -/
def seasonalFlags (series : List (Nat × Nat × ℚ)) (threshold : ℚ) :
    List AnomalyResult :=
  if series.length < 25 then []
  else
    let residuals : List ℚ :=
      series.map (fun p => p.2.2 - monthMean series (p.1 % 12))
    let μR : ℚ := mean residuals
    let σRsq : ℚ := variance residuals
    if σRsq = 0 then []
    else
      (series.zip residuals).filterMap (fun (pr : (Nat × Nat × ℚ) × ℚ) =>
        if (pr.2 - μR) ^ 2 > threshold ^ 2 * σRsq then
          some ({ id := pr.1.2.1,
                  reason := s!"Residual {pr.2} exceeds {threshold} residual standard deviations" } : AnomalyResult)
        else none)

/-- The SeasonalResidualDetector applied to the records: run `seasonalFlags`
on the date-sorted usable series. -/
def seasonalResidualDetector (records : List Record) (threshold : ℚ) :
    List AnomalyResult :=
  seasonalFlags (seasonalSeries records) threshold

/-- Modelled from the spec (§4.4, §7): the DetectionDispatcher.  Validates
parameters before running any detector: a non-positive threshold is an
`InvalidParameter` caller error with no computation attempted; for the
seasonal method, a date column absent across the whole (non-empty)
RecordSet is `MalformedInput`. -/
def detect (records : List Record) (req : DetectionRequest) :
    Except DetectError (List AnomalyResult) :=
  match req with
  | .range minB maxB => .ok (rangeDetector records minB maxB)
  | .statistical t =>
      if t ≤ 0 then .error (.InvalidParameter "threshold")
      else .ok (statisticalDetector records t)
  | .seasonal_residual t =>
      if t ≤ 0 then .error (.InvalidParameter "threshold")
      else if records ≠ [] ∧ records.all (fun r => r.date.isNone) then
        .error .MalformedInput
      else .ok (seasonalResidualDetector records t)

/-! ## Helper lemmas -/

/-- Finding the first element satisfying a predicate is taking the head of
the filtered list. -/
theorem find?_eq_filter_head? {α : Type} (p : α → Bool) (l : List α) :
    l.find? p = (l.filter p).head? := by
  induction l with
  | nil => rfl
  | cons a l ih =>
      simp only [List.find?_cons, List.filter_cons]
      cases h : p a with
      | false => exact ih
      | true => rfl

/-! ## C10 -/

/-- C10: for every `tableData`, `anomalyData` and `showOnlyAnomalies` flag,
the table displays exactly the rows of `tableData` whose id occurs among the
anomaly ids when the flag is true — in their original `tableData` order —
and all of `tableData` unchanged when it is false. -/
theorem displayData_shows_exactly_matching_rows (tableData : List DataRow)
    (anomalyData : List AnomalyRes) :
    displayData tableData anomalyData true =
      tableData.filter (fun row =>
        decide (row.id ∈ anomalyData.map (fun a => a.id))) ∧
    (displayData tableData anomalyData true).Sublist tableData ∧
    displayData tableData anomalyData false = tableData := by
  refine ⟨?_, ?_, rfl⟩
  · simp only [displayData, if_pos]
    apply List.filter_congr
    intro row _
    simp [isAnomaly, anomalyIds, List.contains]
  · simp only [displayData, if_pos]
    exact List.filter_sublist tableData

/-! ## C3 -/

/-- C3: the presentation layer joins anomalies to records by id — a row is
highlighted as anomalous iff its id occurs among the anomaly ids, and the
Anomaly Info cell shows the reason of the first matching `AnomalyResult`,
or the empty string when none matches. -/
theorem anomaly_join_by_id (anomalyData : List AnomalyRes) (rowId : Int) :
    (isAnomaly anomalyData rowId = true ↔
      rowId ∈ anomalyData.map (fun a => a.id)) ∧
    anomalyInfo anomalyData rowId =
      (((anomalyData.filter (fun a => a.id = rowId)).head?).map
        (fun a => a.anomaly_reason)).getD "" := by
  constructor
  · simp [isAnomaly, anomalyIds]
  · simp only [anomalyInfo, find?_eq_filter_head?]

/-! ## C8 -/

/-- C8: when either fetch fails, `loadData` surfaces an error and leaves
both the record list and the anomaly list empty — never a record list
paired with stale or partial anomalies. -/
theorem loadData_no_partial_results (fd : Except String (List DataRow))
    (fa : Except String (List AnomalyRes))
    (h : (∃ e, fd = .error e) ∨ (∃ e, fa = .error e)) :
    (loadData fd fa).error = some fetchErrorMessage ∧
    (loadData fd fa).data = [] ∧ (loadData fd fa).anomalies = [] := by
  cases fd with
  | error e => simp [loadData]
  | ok d =>
      cases fa with
      | error e => simp [loadData]
      | ok a =>
          rcases h with ⟨e, he⟩ | ⟨e, he⟩ <;> cases he

/-- Witness for C8: a failing `fetchData` leaves an error and two empty
lists. -/
theorem loadData_no_partial_results_witness :
    (loadData (.error "Network Error") (.ok ([] : List AnomalyRes))).error =
      some fetchErrorMessage ∧
    (loadData (.error "Network Error") (.ok ([] : List AnomalyRes))).data = [] ∧
    (loadData (.error "Network Error") (.ok ([] : List AnomalyRes))).anomalies = [] :=
  loadData_no_partial_results (.error "Network Error") (.ok [])
    (Or.inl ⟨"Network Error", rfl⟩)

/-! ## C4 -/

/-- C4: the default detection configuration carries threshold 3.0 — the
`defaultFilters` threshold string is `"3.0"`, which denotes the rational 3,
and after any interaction history a Reset restores that default. -/
theorem default_threshold_is_three (evs : List ClientEvent) :
    defaultFilters.threshold = "3.0" ∧
    parseDecimal "3.0" = some 3 ∧
    (runEvents (evs ++ [ClientEvent.reset])).threshold = "3.0" := by
  refine ⟨?_, ?_, ?_⟩
  · rfl
  · simp [parseDecimal, digitsToNat]
  · simp [runEvents, List.foldl_append, step, defaultFilters]

/-! ## C6 -/

/-- C6: with neither `min` nor `max` supplied the RangeDetector is a no-op
returning an empty result, and a Record with a missing value is never
flagged by it. -/
theorem rangeDetector_noop_and_skips_missing (records : List Record)
    (minB maxB : Option ℚ) (r : Record) (h : r.value = none) :
    rangeDetector records none none = [] ∧ flagRange minB maxB r = none := by
  constructor
  · simp only [rangeDetector, List.filterMap_eq_nil_iff]
    intro a _
    cases hv : a.value <;> simp [flagRange, hv]
  · simp [flagRange, h]

/-- Witness for C6: a one-record set with a missing value, and the
missing-value record is not flagged even with both bounds supplied. -/
theorem rangeDetector_noop_witness :
    rangeDetector [{ id := 1, value := none, date := none }] none none = [] ∧
    flagRange (some 5) (some 10) { id := 1, value := none, date := none } = none :=
  rangeDetector_noop_and_skips_missing
    [{ id := 1, value := none, date := none }] (some 5) (some 10)
    { id := 1, value := none, date := none } rfl

/-! ## C5 -/

/-- A nonempty list of equal values has its mean equal to that value. -/
theorem mean_of_constant (xs : List ℚ) (c : ℚ) (hne : xs ≠ [])
    (h : ∀ v ∈ xs, v = c) : mean xs = c := by
  have hsum : xs.sum = (xs.length : ℚ) * c := by
    induction xs with
    | nil => simp
    | cons a l ih =>
        have ha : a = c := h a (List.mem_cons_self a l)
        by_cases hl : l = []
        · subst hl; simp [ha]
        · have := ih hl (fun v hv => h v (List.mem_cons_of_mem a hv))
          simp [List.sum_cons, this, ha]
          ring
  have hlen : (xs.length : ℚ) ≠ 0 := by
    have h0 : xs.length ≠ 0 := fun h0 => hne (List.length_eq_zero.mp h0)
    exact Nat.cast_ne_zero.mpr h0
  rw [mean, hsum, mul_comm, mul_div_assoc, div_self hlen, mul_one]

/-- A nonempty list of equal values has zero variance. -/
theorem variance_of_constant (xs : List ℚ) (c : ℚ) (hne : xs ≠ [])
    (h : ∀ v ∈ xs, v = c) : variance xs = 0 := by
  have hmean := mean_of_constant xs c hne h
  have hzero : (xs.map (fun x => (x - mean xs) ^ 2)).sum = 0 := by
    apply List.sum_eq_zero
    intro x hx
    rcases List.mem_map.mp hx with ⟨v, hv, rfl⟩
    rw [hmean, h v hv]
    ring
  rw [variance, hzero, zero_div]

/-- C5: when all valid values of the RecordSet are identical (zero standard
deviation) and the threshold is positive, the StatisticalDetector returns
the benign empty result: the degenerate-distribution branch is taken before
any z-score division. -/
theorem statisticalDetector_degenerate_empty (records : List Record)
    (threshold : ℚ) (c : ℚ) (hall : ∀ v ∈ validValues records, v = c)
    (_hpos : 0 < threshold) :
    statisticalDetector records threshold = [] := by
  by_cases hlen : (validValues records).length < 2
  · simp [statisticalDetector, if_pos hlen]
  · have hne : validValues records ≠ [] := by
      intro hnil
      rw [hnil] at hlen
      simp at hlen
    have hvar : variance (validValues records) = 0 :=
      variance_of_constant _ c hne hall
    simp [statisticalDetector, if_neg hlen, hvar]

/-- Witness for C5: two records both valued 5 and threshold 3 give an empty
result. -/
theorem statisticalDetector_degenerate_witness :
    (0 : ℚ) < 3 ∧
    statisticalDetector [{ id := 1, value := some 5, date := none },
      { id := 2, value := some 5, date := none }] 3 = [] := by
  constructor
  · norm_num
  · exact statisticalDetector_degenerate_empty
      [{ id := 1, value := some 5, date := none },
       { id := 2, value := some 5, date := none }] 3 5
      (by intro v hv; simp [validValues] at hv; exact hv)
      (by norm_num)

/-! ## C9 -/

/-- Inserting rows preserves the `AUTOINCREMENT` invariant: every assigned
id is below the counter, and the ids are pairwise distinct. -/
theorem insertRow_preserves_unique_ids (rs : List StoredRow)
    (t : CrossingTable) (hb : ∀ i ∈ t.rows.map Prod.fst, i < t.nextId)
    (hnd : (t.rows.map Prod.fst).Nodup) :
    ((rs.foldl insertRow t).rows.map Prod.fst).Nodup := by
  induction rs generalizing t with
  | nil => exact hnd
  | cons r rs ih =>
      apply ih
      · intro i hi
        simp only [insertRow, List.map_append, List.mem_append, List.map_cons,
          List.map_nil, List.mem_singleton] at hi ⊢
        rcases hi with hi | hi
        · exact Nat.lt_succ_of_lt (hb i hi)
        · omega
      · simp only [insertRow, List.map_append]
        simp only [List.map_cons, List.map_nil]
        rw [List.nodup_append]
        refine ⟨hnd, List.nodup_singleton _, ?_⟩
        intro i hi hmem
        have := hb i hi
        simp at hmem
        omega

/-- C9: ids in the `border_crossing_entry_data` table are unique — for every
load order, no two stored rows share an id, so joins by id resolve to at
most one row. -/
theorem border_crossing_ids_unique (rs : List StoredRow) :
    (((border_crossing_entry_data rs).rows.map Prod.fst)).Nodup := by
  apply insertRow_preserves_unique_ids
  · intro i hi
    simp [emptyTable] at hi
  · simp [emptyTable]

/-! ## C2 -/

/-- C2 counterexample: the schema declares `value INTEGER NOT NULL`, so no
stored row conforming to `border_crossing_entry_data` can have its value
absent — a partial Record with a missing value is not representable. -/
theorem no_conforming_row_lacks_value :
    ¬ ∃ r : StoredRow, conformsToSchema r = true ∧ r.value = none := by
  rintro ⟨r, hc, hv⟩
  simp [conformsToSchema, hv] at hc

/-- C2 (amended): `value` and `date` are `NOT NULL` columns, so every row
conforming to the schema carries both; only `latitude`, `longitude` and
`point` may be absent, as the all-null-optional witness row shows. -/
theorem conforming_rows_have_value_and_date (r : StoredRow)
    (h : conformsToSchema r = true) :
    r.value.isSome = true ∧ r.date.isSome = true := by
  simp only [conformsToSchema, Bool.and_eq_true] at h
  exact ⟨h.2, h.1.1.2⟩

/-- Witness for amended C2: a fully populated row conforms and indeed has
both value and date present, while its nullable columns are absent. -/
theorem conforming_rows_witness :
    ({ port_name := some "Eastport", state := some "ME", port_code := some 101,
       border := some "US-Canada Border", date := some "2024-01-01",
       measure := some "Trucks", value := some 12, latitude := none,
       longitude := none, point := none } : StoredRow).value.isSome = true ∧
    ({ port_name := some "Eastport", state := some "ME", port_code := some 101,
       border := some "US-Canada Border", date := some "2024-01-01",
       measure := some "Trucks", value := some 12, latitude := none,
       longitude := none, point := none } : StoredRow).date.isSome = true :=
  conforming_rows_have_value_and_date
    { port_name := some "Eastport", state := some "ME", port_code := some 101,
      border := some "US-Canada Border", date := some "2024-01-01",
      measure := some "Trucks", value := some 12, latitude := none,
      longitude := none, point := none } rfl

/-! ## C1 -/

/-- No interaction can move `anomaly_type` outside the option values the
`anomaly_type` select offers (which are the supported methods), starting
from any state whose method is supported. -/
theorem anomaly_type_stays_supported (evs : List ClientEvent) (s : Filters)
    (h : s.anomaly_type ∈ supportedMethods) :
    (evs.foldl step s).anomaly_type ∈ supportedMethods := by
  induction evs generalizing s with
  | nil => exact h
  | cons e evs ih =>
      apply ih
      cases e with
      | selectAnomalyType v =>
          by_cases hv : v ∈ anomalyTypeOptions
          · have hv' : v ∈ supportedMethods := hv
            simpa [step, hv, handleChange] using hv'
          · simpa [step, hv] using h
      | selectOther f v => cases f <;> simpa [step, handleChange] using h
      | input f v => cases f <;> simpa [step, handleChange] using h
      | toggleShowOnly c => simpa [step, handleChange] using h
      | reset => simp [step, defaultFilters, supportedMethods]

/-- C1 counterexample: the automatic request `App` submits on mount uses its
initial `activeFilters`, which carries no `anomaly_type` key at all — so a
submittable request exists whose method is not one of the three supported
values. -/
theorem initial_request_has_no_method :
    Submittable initialActiveFiltersParams ∧
    initialActiveFiltersParams.method ∉ supportedMethods.map Option.some :=
  ⟨Submittable.initial, by simp [initialActiveFiltersParams, supportedMethods]⟩

/-- C1 (amended): every request the client submits either is the initial
mount request — which carries no method field — or carries a method equal
to one of the three supported values; no other method value is ever sent. -/
theorem submitted_method_supported_or_initial (p : ApiParams)
    (h : Submittable p) :
    p = initialActiveFiltersParams ∨
    p.method ∈ supportedMethods.map Option.some := by
  cases h with
  | initial => exact Or.inl rfl
  | applied evs =>
      right
      have hm : (runEvents evs).anomaly_type ∈ supportedMethods :=
        anomaly_type_stays_supported evs defaultFilters
          (by simp [defaultFilters, supportedMethods])
      exact List.mem_map_of_mem Option.some hm

/-- Witness for amended C1: the request produced by an immediate Apply
carries the supported default method `statistical`. -/
theorem submitted_method_witness :
    Submittable (applyFilters (runEvents [])) ∧
    (applyFilters (runEvents []) = initialActiveFiltersParams ∨
      (applyFilters (runEvents [])).method ∈ supportedMethods.map Option.some) :=
  ⟨Submittable.applied [],
    submitted_method_supported_or_initial (applyFilters (runEvents []))
      (Submittable.applied [])⟩

/-! ## C7 -/

/-- C7 counterexample: the client does not constrain the threshold it can
submit to be positive — typing `-1` into the threshold input is accepted by
`handleChange` (the `min="0.1"` attribute of the input does not restrict what
`onChange` stores), and `-1` denotes the non-positive rational −1. -/
theorem client_can_submit_nonpositive_threshold :
    (runEvents [ClientEvent.input FilterField.threshold "-1"]).threshold = "-1" ∧
    (applyFilters (runEvents [ClientEvent.input FilterField.threshold "-1"])).threshold =
      some "-1" ∧
    parseDecimal "-1" = some (-1) ∧ ¬ (0 : ℚ) < -1 := by
  refine ⟨rfl, rfl, ?_, by norm_num⟩
  simp [parseDecimal, digitsToNat]

/-- C7 (amended): the engine rejects a non-positive threshold as an
`InvalidParameter` caller error with no computation attempted, for both
threshold-carrying methods; the client, however, merely declares
`min="0.1"` on the threshold input and does not prevent submitting a
non-positive value. -/
theorem detect_rejects_nonpositive_threshold (records : List Record)
    (t : ℚ) (h : t ≤ 0) :
    detect records (DetectionRequest.statistical t) =
      .error (DetectError.InvalidParameter "threshold") ∧
    detect records (DetectionRequest.seasonal_residual t) =
      .error (DetectError.InvalidParameter "threshold") := by
  constructor <;> simp [detect, if_pos h]

/-- Witness for amended C7: threshold 0 on a one-record set is rejected for
both methods. -/
theorem detect_rejects_witness :
    detect [{ id := 1, value := some 5, date := some 0 }]
      (DetectionRequest.statistical 0) =
      .error (DetectError.InvalidParameter "threshold") ∧
    detect [{ id := 1, value := some 5, date := some 0 }]
      (DetectionRequest.seasonal_residual 0) =
      .error (DetectError.InvalidParameter "threshold") :=
  detect_rejects_nonpositive_threshold
    [{ id := 1, value := some 5, date := some 0 }] 0 (le_refl 0)

end AnomalyDetect
